import Mathlib

/-!
Verification of `torch/distributed/checkpoint/state_dict_saver.py`.

The save orchestration is embedded shallowly: Planner and StorageWriter are
bundles of pure operations with explicit state threading, each rank is a
`RankState`, and the two collectives of `_DistWrapper` (which lives in the
`.utils` module, outside the excerpted source) are modelled from the spec's
description of `reduce_scatter` and `all_reduce`.  Every per-rank collection
is represented as a function `Nat → _` together with an explicit world size.
Hook invocations are recorded in a per-rank trace so that ordering claims can
be stated.  The `Future` returned by `write_data` is collapsed into the
results it yields after `wait()`/`value()`, and the thread-pool future of
`async_save` is collapsed into the eventual value of the submitted call.
-/

/-- Hook invocations on the planner and storage writer, in the order the
orchestration performs them; used to record per-rank call traces. -/
inductive Hook where
  | set_up_planner : Hook
  | set_up_storage_writer : Hook
  | create_local_plan : Hook
  | prepare_local_plan : Hook
  | create_global_plan : Hook
  | prepare_global_plan : Hook
  | finish_plan : Hook
  | write_data : Hook
  | finish : Hook
deriving DecidableEq, Repr

/-- Failures that can arise inside the simulated orchestration: the
`assert global_metatadata is not None` in `finish_checkpoint`, and a rank
receiving no plan from the scatter step (out-of-range index). -/
inductive SimErr where
  | assert_global_metadata_none : SimErr
  | missing_central_plan : SimErr
deriving DecidableEq, Repr

/-- Synchronous configuration failures of the public entry points. -/
inductive SaveErr where
  | no_writer_and_no_checkpoint_id : SaveErr
  | cpu_backend_required : SaveErr
deriving DecidableEq, Repr

/-- Non-fatal diagnostics emitted by the entry points. -/
inductive Warning where
  | single_process_assumed : Warning
  | deprecated_save_state_dict : Warning
deriving DecidableEq, Repr

/-- The `Stateful` protocol: an object whose `state_dict()` method produces a
snapshot value. -/
structure Stateful (V : Type) where
  state_dict : V
deriving DecidableEq, Repr

/-- A value of a checkpoint state dict: either a plain value or a `Stateful`
object. -/
inductive SDValue (V : Type) where
  | plain : V → SDValue V
  | stateful : Stateful V → SDValue V
deriving DecidableEq, Repr

/-- Mirrors `elem.state_dict() if isinstance(elem, Stateful) else elem`
(line 291 of the source). -/
def SDValue.resolve {V : Type} : SDValue V → SDValue V
  | SDValue.plain v => SDValue.plain v
  | SDValue.stateful s => SDValue.plain s.state_dict

/-- True when some value of the state dict is a `Stateful` object. -/
def has_stateful {K V : Type} (sd : List (K × SDValue V)) : Bool :=
  sd.any fun kv =>
    match kv.2 with
    | SDValue.stateful _ => true
    | SDValue.plain _ => false

/-- Embeds `_stateful_to_state_dict` (lines 286-293): a shallow copy of the
mapping where each `Stateful` value is replaced by its `state_dict()`
snapshot and every other value is kept unchanged. -/
def _stateful_to_state_dict {K V : Type} (sd : List (K × SDValue V)) :
    List (K × SDValue V) :=
  sd.map fun kv => (kv.1, SDValue.resolve kv.2)

/-- The planner capability (`SavePlanner`), with explicit planner state `Pl`.
`create_global_plan` returns an `Option M` metadata, reflecting that the
closed-over `global_metatadata` variable is assigned whatever the planner
returns. -/
structure PlannerOps (S LP M Pl : Type) where
  set_up_planner : Pl → S → Bool → Pl
  create_local_plan : Pl → Pl × LP
  create_global_plan : Pl → List LP → Pl × (List LP × Option M)
  finish_plan : Pl → LP → Pl × LP

/-- The storage writer capability (`StorageWriter`), with explicit writer
state `Wr`.  `write_data` returns the results its future yields after
`wait()`/`value()`. -/
structure WriterOps (LP M WR Wr Pl : Type) where
  reset : Wr → Wr
  set_up_storage_writer : Wr → Bool → Wr
  prepare_local_plan : Wr → LP → Wr × LP
  prepare_global_plan : Wr → List LP → Wr × List LP
  write_data : Wr → LP → Pl → Wr × List WR
  finish : Wr → M → List (List WR) → Wr

/-- Per-rank state of one `_save_state_dict` run: the rank's planner and
writer instances, the closed-over `global_metatadata` cell, and the trace of
hook invocations performed so far on this rank. -/
structure RankState (Pl Wr M : Type) where
  planner : Pl
  writer : Wr
  global_metatadata : Option M
  trace : List Hook
deriving DecidableEq, Repr

/-- Modelled from the spec: the `_DistWrapper` built by `_save_state_dict`
from `process_group`, `not no_dist`, `coordinator_rank` (its class lives in
`torch.distributed.checkpoint.utils`, which is not part of the excerpted
source).  The world size is passed to each collective explicitly. -/
structure _DistWrapper where
  use_dist : Bool
  coordinator_rank : Nat
deriving DecidableEq, Repr

/-- Modelled from the spec: whether a given rank is the coordinator; with no
communication backend the single participant acts as its own coordinator. -/
def _DistWrapper.is_coordinator (d : _DistWrapper) (rank : Nat) : Bool :=
  if d.use_dist then rank == d.coordinator_rank else true

/-- Modelled from the spec: `_DistWrapper.reduce_scatter`.  Every participant
executes its local step; the coordinator gathers all values in rank order,
executes the global step, and element `i` of the returned sequence is handed
back to participant `i`.  With no communication backend the single
participant runs the local step and the global step directly on a
one-element sequence, and its single returned element is handed back. -/
def _DistWrapper.reduce_scatter {σ α β : Type} (d : _DistWrapper) (N : Nat)
    (states : Nat → σ) (localStep : Nat → σ → σ × α)
    (globalStep : σ → List α → σ × List β) :
    (Nat → σ) × (Nat → Option β) :=
  if d.use_dist then
    let states1 : Nat → σ := fun i => (localStep i (states i)).1
    let locals : List α := (List.range N).map fun i => (localStep i (states i)).2
    let g := globalStep (states1 d.coordinator_rank) locals
    (fun i => if i = d.coordinator_rank then g.1 else states1 i,
     fun i => g.2[i]?)
  else
    let l0 := localStep 0 (states 0)
    let g := globalStep l0.1 [l0.2]
    (fun _ => g.1, fun _ => g.2[0]?)

/-- Modelled from the spec: `_DistWrapper.all_reduce`.  Identical gather
step; the coordinator's global step computes one aggregate value and every
participant receives that same value as its return. -/
def _DistWrapper.all_reduce {σ α γ : Type} (d : _DistWrapper) (N : Nat)
    (states : Nat → σ) (localStep : Nat → σ → σ × α)
    (globalStep : σ → List α → σ × γ) :
    (Nat → σ) × (Nat → γ) :=
  if d.use_dist then
    let states1 : Nat → σ := fun i => (localStep i (states i)).1
    let locals : List α := (List.range N).map fun i => (localStep i (states i)).2
    let g := globalStep (states1 d.coordinator_rank) locals
    (fun i => if i = d.coordinator_rank then g.1 else states1 i,
     fun _ => g.2)
  else
    let l0 := localStep 0 (states 0)
    let g := globalStep l0.1 [l0.2]
    (fun _ => g.1, fun _ => g.2)

/-- Sequences a list of fallible results, propagating the first failure. -/
def collectResults {E A : Type} : List (Except E A) → Except E (List A)
  | [] => Except.ok []
  | x :: rest =>
    match x with
    | Except.error e => Except.error e
    | Except.ok a =>
      match collectResults rest with
      | Except.error e => Except.error e
      | Except.ok ys => Except.ok (a :: ys)

/-- Embeds the `local_step` closure of `_save_state_dict` (lines 313-319):
planner setup, writer setup, local plan creation, local plan preparation. -/
def local_step {S LP M WR Pl Wr : Type} (P : PlannerOps S LP M Pl)
    (W : WriterOps LP M WR Wr Pl) (state_dict : S) (is_coord : Bool)
    (st : RankState Pl Wr M) : RankState Pl Wr M × LP :=
  let p1 := P.set_up_planner st.planner state_dict is_coord
  let w1 := W.set_up_storage_writer st.writer is_coord
  let cl := P.create_local_plan p1
  let pl := W.prepare_local_plan w1 cl.2
  (⟨cl.1, pl.1, st.global_metatadata,
    st.trace ++ [Hook.set_up_planner, Hook.set_up_storage_writer,
                 Hook.create_local_plan, Hook.prepare_local_plan]⟩,
   pl.2)

/-- Embeds the `global_step` closure of `_save_state_dict` (lines 321-327):
global plan creation (whose metadata is stored into the closed-over
`global_metatadata` cell) followed by global plan preparation. -/
def global_step {S LP M WR Pl Wr : Type} (P : PlannerOps S LP M Pl)
    (W : WriterOps LP M WR Wr Pl) (st : RankState Pl Wr M)
    (all_local_plans : List LP) : RankState Pl Wr M × List LP :=
  let cg := P.create_global_plan st.planner all_local_plans
  let pg := W.prepare_global_plan st.writer cg.2.1
  (⟨cg.1, pg.1, cg.2.2,
    st.trace ++ [Hook.create_global_plan, Hook.prepare_global_plan]⟩,
   pg.2)

/-- Embeds the `write_data` closure of `_save_state_dict` (lines 331-337):
finalize the assigned plan, perform the write, and block on the returned
future until its results are available.  A rank that received no plan from
the scatter step fails with `missing_central_plan`. -/
def write_data {S LP M WR Pl Wr : Type} (P : PlannerOps S LP M Pl)
    (W : WriterOps LP M WR Wr Pl) (central_plan : Option LP)
    (st : RankState Pl Wr M) :
    RankState Pl Wr M × Except SimErr (List WR) :=
  match central_plan with
  | none => (st, Except.error SimErr.missing_central_plan)
  | some cp =>
    let fp := P.finish_plan st.planner cp
    let wd := W.write_data st.writer fp.2 fp.1
    (⟨fp.1, wd.1, st.global_metatadata,
      st.trace ++ [Hook.finish_plan, Hook.write_data]⟩,
     Except.ok wd.2)

/-- Embeds the `finish_checkpoint` closure of `_save_state_dict`
(lines 339-342): assert the closed-over metadata cell is populated, then
call `finish` with it and the combined results and return the metadata. -/
def finish_checkpoint {LP M WR Wr Pl : Type} (W : WriterOps LP M WR Wr Pl)
    (st : RankState Pl Wr M) (all_results : List (Except SimErr (List WR))) :
    RankState Pl Wr M × Except SimErr M :=
  match st.global_metatadata with
  | none => (st, Except.error SimErr.assert_global_metadata_none)
  | some g =>
    match collectResults all_results with
    | Except.error e => (st, Except.error e)
    | Except.ok results =>
      (⟨st.planner, W.finish st.writer g results, st.global_metatadata,
        st.trace ++ [Hook.finish]⟩,
       Except.ok g)

/-- Initial per-rank state: fresh planner and writer instances, the
`global_metatadata` cell still `None`, no hooks invoked yet. -/
def init_rank {Pl Wr M : Type} (p0 : Nat → Pl) (w0 : Nat → Wr) :
    Nat → RankState Pl Wr M :=
  fun i => ⟨p0 i, w0 i, none, []⟩

/-- The local step of the plan phase as run on rank `i`, with the rank's own
state dict and coordinator flag. -/
def plan_local {S LP M WR Pl Wr : Type} (P : PlannerOps S LP M Pl)
    (W : WriterOps LP M WR Wr Pl) (d : _DistWrapper) (sds : Nat → S)
    (i : Nat) (st : RankState Pl Wr M) : RankState Pl Wr M × LP :=
  local_step P W (sds i) (d.is_coordinator i) st

/-- The plan-phase collective of `_save_state_dict` (line 329):
`distW.reduce_scatter("plan", local_step, global_step)` over all ranks. -/
def planPhase {S LP M WR Pl Wr : Type} (P : PlannerOps S LP M Pl)
    (W : WriterOps LP M WR Wr Pl) (d : _DistWrapper) (N : Nat)
    (sds : Nat → S) (p0 : Nat → Pl) (w0 : Nat → Wr) :
    (Nat → RankState Pl Wr M) × (Nat → Option LP) :=
  d.reduce_scatter N (init_rank p0 w0) (plan_local P W d sds) (global_step P W)

/-- Per-rank states after the plan phase. -/
def planStates {S LP M WR Pl Wr : Type} (P : PlannerOps S LP M Pl)
    (W : WriterOps LP M WR Wr Pl) (d : _DistWrapper) (N : Nat)
    (sds : Nat → S) (p0 : Nat → Pl) (w0 : Nat → Wr) :
    Nat → RankState Pl Wr M :=
  (planPhase P W d N sds p0 w0).1

/-- The `central_plan` each rank receives from the plan-phase collective. -/
def centralPlans {S LP M WR Pl Wr : Type} (P : PlannerOps S LP M Pl)
    (W : WriterOps LP M WR Wr Pl) (d : _DistWrapper) (N : Nat)
    (sds : Nat → S) (p0 : Nat → Pl) (w0 : Nat → Wr) :
    Nat → Option LP :=
  (planPhase P W d N sds p0 w0).2

/-- Embeds `_save_state_dict` (lines 296-344) over all ranks: the plan-phase
`reduce_scatter` followed by the write-phase
`all_reduce("write", write_data, finish_checkpoint)`; returns the final
per-rank states and each rank's returned value. -/
def _save_state_dict {S LP M WR Pl Wr : Type} (P : PlannerOps S LP M Pl)
    (W : WriterOps LP M WR Wr Pl) (d : _DistWrapper) (N : Nat)
    (sds : Nat → S) (p0 : Nat → Pl) (w0 : Nat → Wr) :
    (Nat → RankState Pl Wr M) × (Nat → Except SimErr M) :=
  d.all_reduce N (planStates P W d N sds p0 w0)
    (fun i st => write_data P W (centralPlans P W d N sds p0 w0 i) st)
    (fun st results => finish_checkpoint W st results)

/-- Rank-ordered sequence of the plan-phase local outputs (the sequence the
coordinator's `global_step` receives). -/
def plan_local_outs {S LP M WR Pl Wr : Type} (P : PlannerOps S LP M Pl)
    (W : WriterOps LP M WR Wr Pl) (d : _DistWrapper) (N : Nat)
    (sds : Nat → S) (p0 : Nat → Pl) (w0 : Nat → Wr) : List LP :=
  (List.range N).map fun i =>
    (plan_local P W d sds i (init_rank p0 w0 i)).2

/-- Per-rank states after the plan-phase local step but before the
coordinator's global step. -/
def plan_states1 {S LP M WR Pl Wr : Type} (P : PlannerOps S LP M Pl)
    (W : WriterOps LP M WR Wr Pl) (d : _DistWrapper)
    (sds : Nat → S) (p0 : Nat → Pl) (w0 : Nat → Wr) :
    Nat → RankState Pl Wr M :=
  fun i => (plan_local P W d sds i (init_rank p0 w0 i)).1

/-- Per-rank states after the write-phase local step (`write_data`). -/
def write_local_state {S LP M WR Pl Wr : Type} (P : PlannerOps S LP M Pl)
    (W : WriterOps LP M WR Wr Pl) (d : _DistWrapper) (N : Nat)
    (sds : Nat → S) (p0 : Nat → Pl) (w0 : Nat → Wr) :
    Nat → RankState Pl Wr M :=
  fun i => (write_data P W (centralPlans P W d N sds p0 w0 i)
    (planStates P W d N sds p0 w0 i)).1

/-- Rank-ordered sequence of write-phase results (the sequence the
coordinator's `finish_checkpoint` receives). -/
def write_outs {S LP M WR Pl Wr : Type} (P : PlannerOps S LP M Pl)
    (W : WriterOps LP M WR Wr Pl) (d : _DistWrapper) (N : Nat)
    (sds : Nat → S) (p0 : Nat → Pl) (w0 : Nat → Wr) :
    List (Except SimErr (List WR)) :=
  (List.range N).map fun i =>
    (write_data P W (centralPlans P W d N sds p0 w0 i)
      (planStates P W d N sds p0 w0 i)).2

/-- Distributed environment observed by the entry points:
`dist.is_available() and dist.is_initialized()`, and whether the process
group (given or default) has a CPU device type. -/
structure DistEnv where
  is_dist_init : Bool
  has_cpu_device : Bool
deriving DecidableEq, Repr

/-- Modelled from the spec: `_storage_setup` from `._storage_utils` (not part
of the excerpted source).  When no writer is given one is inferred from
`checkpoint_id`; when both are `None` a precondition failure is raised. -/
def _storage_setup {C Wr : Type} (storage_writer : Option Wr)
    (checkpoint_id : Option C) (infer_writer : C → Wr) : Except SaveErr Wr :=
  match storage_writer with
  | some w => Except.ok w
  | none =>
    match checkpoint_id with
    | some cid => Except.ok (infer_writer cid)
    | none => Except.error SaveErr.no_writer_and_no_checkpoint_id

/-- Embeds `save` (lines 54-153): compute `no_dist` from the distributed
environment (warning when saving in a single process), resolve the writer via
`_storage_setup`, resolve `Stateful` objects, and run `_save_state_dict` with
coordinator rank 0. -/
def save {K V C LP M WR Pl Wr : Type} (env : DistEnv)
    (P : PlannerOps (List (K × SDValue V)) LP M Pl)
    (W : WriterOps LP M WR Wr Pl) (infer_writer : C → Wr)
    (sds : Nat → List (K × SDValue V)) (N : Nat)
    (checkpoint_id : Option C) (storage_writer : Option Wr) (p0 : Pl) :
    List Warning ×
      Except SaveErr
        ((Nat → RankState Pl Wr M) × (Nat → Except SimErr M)) :=
  let no_dist := !env.is_dist_init
  let warns := if no_dist then [Warning.single_process_assumed] else []
  match _storage_setup storage_writer checkpoint_id infer_writer with
  | Except.error e => (warns, Except.error e)
  | Except.ok w =>
    (warns,
     Except.ok (_save_state_dict P W ⟨!no_dist, 0⟩ N
       (fun i => _stateful_to_state_dict (sds i)) (fun _ => p0) (fun _ => w)))

/-- Embeds the deprecated `save_state_dict` (lines 25-50): emit the
deprecation warning, reset the storage writer, and run `_save_state_dict`
directly on the given state dict (no `Stateful` resolution, no writer
inference). -/
def save_state_dict {S LP M WR Pl Wr : Type} (P : PlannerOps S LP M Pl)
    (W : WriterOps LP M WR Wr Pl) (sds : Nat → S) (N : Nat)
    (storage_writer : Wr) (coordinator_rank : Nat) (no_dist : Bool)
    (p0 : Pl) :
    List Warning ×
      ((Nat → RankState Pl Wr M) × (Nat → Except SimErr M)) :=
  let w := W.reset storage_writer
  ([Warning.deprecated_save_state_dict],
   _save_state_dict P W ⟨!no_dist, coordinator_rank⟩ N sds
     (fun _ => p0) (fun _ => w))

/-- The optional `AsyncStager` capability of a storage writer. -/
structure AsyncStager (S : Type) where
  stage : S → S
  synchronize_after_execute : Bool

/-- Events observable on the caller side of `async_save`, with the state dict
handed to each step as payload. -/
inductive AsyncEvent (S : Type) where
  | stage_called : S → AsyncEvent S
  | offload_called : S → AsyncEvent S
  | submitted : S → AsyncEvent S
  | synchronize_called : AsyncEvent S
deriving DecidableEq, Repr

/-- Mirrors `isinstance(storage_writer, AsyncStager)`: `None` is not an
`AsyncStager`; otherwise query the writer's capability. -/
def stager_of {S Wr : Type} (as_stager : Wr → Option (AsyncStager S)) :
    Option Wr → Option (AsyncStager S)
  | none => none
  | some w => as_stager w

/-- Modelled from the spec: `_offload_state_dict_to_cpu` from
`torch.distributed._state_dict_utils` (not part of the excerpted source)
produces an equal-valued copy independent of the original; at the value
level of this embedding it is the identity. -/
def _offload_state_dict_to_cpu {K V : Type} (sd : List (K × SDValue V)) :
    List (K × SDValue V) :=
  sd

/-- Embeds the staging branch of `async_save` (lines 264-267): an
`AsyncStager` writer has `stage` called on the state dict as given; otherwise
the generic CPU offload is applied to the `Stateful`-resolved state dict.
Returns the events (recording the argument handed to the staging step) and
the resulting `cpu_state_dict`. -/
def async_stage {K V Wr : Type}
    (as_stager : Wr → Option (AsyncStager (List (K × SDValue V))))
    (storage_writer : Option Wr) (sd : List (K × SDValue V)) :
    List (AsyncEvent (List (K × SDValue V))) × List (K × SDValue V) :=
  match stager_of as_stager storage_writer with
  | some cap => ([AsyncEvent.stage_called sd], cap.stage sd)
  | none =>
    let resolved := _stateful_to_state_dict sd
    ([AsyncEvent.offload_called resolved],
     _offload_state_dict_to_cpu resolved)

/-- Embeds `async_save` (lines 156-283): assert the process group can move
CPU data when a backend is active, stage each rank's state dict, submit
`save` on the staged state to the executor, then (when the stager requests
it) synchronize.  The second component is the synchronous error or the
future; the future is collapsed into the eventual value of the submitted
`save` call. -/
def async_save {K V C LP M WR Pl Wr : Type} (env : DistEnv)
    (P : PlannerOps (List (K × SDValue V)) LP M Pl)
    (W : WriterOps LP M WR Wr Pl) (infer_writer : C → Wr)
    (as_stager : Wr → Option (AsyncStager (List (K × SDValue V))))
    (sds : Nat → List (K × SDValue V)) (N : Nat)
    (checkpoint_id : Option C) (storage_writer : Option Wr) (p0 : Pl) :
    (Nat → List (AsyncEvent (List (K × SDValue V)))) ×
      Except SaveErr
        (List Warning ×
          Except SaveErr
            ((Nat → RankState Pl Wr M) × (Nat → Except SimErr M))) :=
  if env.is_dist_init && !env.has_cpu_device then
    (fun _ => [], Except.error SaveErr.cpu_backend_required)
  else
    let staged := fun i => async_stage as_stager storage_writer (sds i)
    let sync_events :=
      match stager_of as_stager storage_writer with
      | some cap =>
        if cap.synchronize_after_execute then [AsyncEvent.synchronize_called]
        else []
      | none => []
    (fun i =>
       (staged i).1 ++ [AsyncEvent.submitted (staged i).2] ++ sync_events,
     Except.ok (save env P W infer_writer (fun i => (staged i).2) N
       checkpoint_id storage_writer p0))

variable {S LP M WR Pl Wr : Type}

/-- The plan-phase local step appends exactly the four local hooks. -/
lemma local_step_trace (P : PlannerOps S LP M Pl) (W : WriterOps LP M WR Wr Pl)
    (sd : S) (b : Bool) (st : RankState Pl Wr M) :
    (local_step P W sd b st).1.trace =
      st.trace ++ [Hook.set_up_planner, Hook.set_up_storage_writer,
                   Hook.create_local_plan, Hook.prepare_local_plan] :=
  rfl

/-- The plan-phase local step does not touch the metadata cell. -/
lemma local_step_md (P : PlannerOps S LP M Pl) (W : WriterOps LP M WR Wr Pl)
    (sd : S) (b : Bool) (st : RankState Pl Wr M) :
    (local_step P W sd b st).1.global_metatadata = st.global_metatadata :=
  rfl

/-- The global step stores exactly the metadata returned by
`create_global_plan` into the closed-over cell. -/
lemma global_step_md (P : PlannerOps S LP M Pl) (W : WriterOps LP M WR Wr Pl)
    (st : RankState Pl Wr M) (plans : List LP) :
    (global_step P W st plans).1.global_metatadata =
      (P.create_global_plan st.planner plans).2.2 :=
  rfl

/-- The global step appends exactly the two coordinator hooks. -/
lemma global_step_trace (P : PlannerOps S LP M Pl) (W : WriterOps LP M WR Wr Pl)
    (st : RankState Pl Wr M) (plans : List LP) :
    (global_step P W st plans).1.trace =
      st.trace ++ [Hook.create_global_plan, Hook.prepare_global_plan] :=
  rfl

/-- The write step never touches the metadata cell. -/
lemma write_data_md (P : PlannerOps S LP M Pl) (W : WriterOps LP M WR Wr Pl)
    (c : Option LP) (st : RankState Pl Wr M) :
    (write_data P W c st).1.global_metatadata = st.global_metatadata := by
  cases c <;> rfl

/-- Given a plan, the write step appends exactly `finish_plan` then
`write_data`. -/
lemma write_data_trace_some (P : PlannerOps S LP M Pl)
    (W : WriterOps LP M WR Wr Pl) (cp : LP) (st : RankState Pl Wr M) :
    (write_data P W (some cp) st).1.trace =
      st.trace ++ [Hook.finish_plan, Hook.write_data] :=
  rfl

/-- The only failure the write step can produce is the missing-plan one. -/
lemma write_data_error (P : PlannerOps S LP M Pl) (W : WriterOps LP M WR Wr Pl)
    (c : Option LP) (st : RankState Pl Wr M) (e : SimErr)
    (h : (write_data P W c st).2 = Except.error e) :
    e = SimErr.missing_central_plan := by
  cases c with
  | none =>
    have : Except.error (α := List WR) SimErr.missing_central_plan =
        Except.error e := h
    exact (Except.error.inj this).symm
  | some cp => exact absurd h (by simp [write_data])

/-- Sequencing a list of successes succeeds. -/
lemma collectResults_ok {E A : Type} {l : List (Except E A)}
    (h : ∀ x ∈ l, ∃ a, x = Except.ok a) :
    ∃ ys, collectResults l = Except.ok ys := by
  induction l with
  | nil => exact ⟨[], rfl⟩
  | cons x rest ih =>
    obtain ⟨ys, hys⟩ := ih fun y hy => h y (List.mem_cons_of_mem x hy)
    obtain ⟨a, rfl⟩ := h x (List.mem_cons_self x rest)
    exact ⟨a :: ys, by simp [collectResults, hys]⟩

/-- A sequencing failure is one of the input failures. -/
lemma collectResults_error_mem {E A : Type} {l : List (Except E A)} {e : E}
    (h : collectResults l = Except.error e) : Except.error e ∈ l := by
  induction l with
  | nil => exact absurd h (by simp [collectResults])
  | cons x rest ih =>
    cases x with
    | error e2 =>
      have he : e2 = e := by simpa [collectResults] using h
      subst he
      exact List.mem_cons_self _ _
    | ok a =>
      cases hr : collectResults rest with
      | error e2 =>
        have he : e2 = e := by
          have := h
          rw [collectResults, hr] at this
          simpa using this
        subst he
        exact List.mem_cons_of_mem _ (ih hr)
      | ok ys =>
        have := h
        rw [collectResults, hr] at this
        exact absurd this (by simp)

/-- Characterization of the plan-phase scatter results with a communication
backend: rank `i` receives element `i` of the sequence the coordinator's
`global_step` returned. -/
lemma centralPlans_dist (P : PlannerOps S LP M Pl) (W : WriterOps LP M WR Wr Pl)
    (d : _DistWrapper) (N : Nat) (sds : Nat → S) (p0 : Nat → Pl)
    (w0 : Nat → Wr) (hud : d.use_dist = true) :
    centralPlans P W d N sds p0 w0 = fun i =>
      ((global_step P W (plan_states1 P W d sds p0 w0 d.coordinator_rank)
        (plan_local_outs P W d N sds p0 w0)).2)[i]? := by
  simp only [centralPlans, planPhase, _DistWrapper.reduce_scatter, hud,
    if_true, plan_states1, plan_local_outs]

/-- Characterization of the post-plan-phase states with a communication
backend. -/
lemma planStates_dist (P : PlannerOps S LP M Pl) (W : WriterOps LP M WR Wr Pl)
    (d : _DistWrapper) (N : Nat) (sds : Nat → S) (p0 : Nat → Pl)
    (w0 : Nat → Wr) (hud : d.use_dist = true) :
    planStates P W d N sds p0 w0 = fun i =>
      if i = d.coordinator_rank then
        (global_step P W (plan_states1 P W d sds p0 w0 d.coordinator_rank)
          (plan_local_outs P W d N sds p0 w0)).1
      else plan_states1 P W d sds p0 w0 i := by
  simp only [planStates, planPhase, _DistWrapper.reduce_scatter, hud,
    if_true, plan_states1, plan_local_outs]

/-- Characterization of the plan-phase scatter result with no communication
backend: the global step runs directly on the one-element sequence and its
single element is handed back. -/
lemma centralPlans_nodist (P : PlannerOps S LP M Pl)
    (W : WriterOps LP M WR Wr Pl) (d : _DistWrapper) (N : Nat) (sds : Nat → S)
    (p0 : Nat → Pl) (w0 : Nat → Wr) (hud : d.use_dist = false) :
    centralPlans P W d N sds p0 w0 = fun _ =>
      ((global_step P W (plan_local P W d sds 0 (init_rank p0 w0 0)).1
        [(plan_local P W d sds 0 (init_rank p0 w0 0)).2]).2)[0]? := by
  simp only [centralPlans, planPhase, _DistWrapper.reduce_scatter, hud,
    Bool.false_eq_true, if_false]

/-- Characterization of the post-plan-phase state with no communication
backend. -/
lemma planStates_nodist (P : PlannerOps S LP M Pl)
    (W : WriterOps LP M WR Wr Pl) (d : _DistWrapper) (N : Nat) (sds : Nat → S)
    (p0 : Nat → Pl) (w0 : Nat → Wr) (hud : d.use_dist = false) :
    planStates P W d N sds p0 w0 = fun _ =>
      (global_step P W (plan_local P W d sds 0 (init_rank p0 w0 0)).1
        [(plan_local P W d sds 0 (init_rank p0 w0 0)).2]).1 := by
  simp only [planStates, planPhase, _DistWrapper.reduce_scatter, hud,
    Bool.false_eq_true, if_false]

/-- Characterization of the write-phase results with a communication backend:
every rank receives the value of the coordinator's single
`finish_checkpoint` computation. -/
lemma save_results_dist (P : PlannerOps S LP M Pl)
    (W : WriterOps LP M WR Wr Pl) (d : _DistWrapper) (N : Nat) (sds : Nat → S)
    (p0 : Nat → Pl) (w0 : Nat → Wr) (hud : d.use_dist = true) :
    (_save_state_dict P W d N sds p0 w0).2 = fun _ =>
      (finish_checkpoint W
        (write_local_state P W d N sds p0 w0 d.coordinator_rank)
        (write_outs P W d N sds p0 w0)).2 := by
  simp only [_save_state_dict, _DistWrapper.all_reduce, hud, if_true,
    write_local_state, write_outs]

/-- Characterization of the final per-rank states with a communication
backend. -/
lemma save_states_dist (P : PlannerOps S LP M Pl)
    (W : WriterOps LP M WR Wr Pl) (d : _DistWrapper) (N : Nat) (sds : Nat → S)
    (p0 : Nat → Pl) (w0 : Nat → Wr) (hud : d.use_dist = true) :
    (_save_state_dict P W d N sds p0 w0).1 = fun i =>
      if i = d.coordinator_rank then
        (finish_checkpoint W
          (write_local_state P W d N sds p0 w0 d.coordinator_rank)
          (write_outs P W d N sds p0 w0)).1
      else write_local_state P W d N sds p0 w0 i := by
  simp only [_save_state_dict, _DistWrapper.all_reduce, hud, if_true,
    write_local_state, write_outs]

/-- Characterization of the write-phase result with no communication
backend. -/
lemma save_results_nodist (P : PlannerOps S LP M Pl)
    (W : WriterOps LP M WR Wr Pl) (d : _DistWrapper) (N : Nat) (sds : Nat → S)
    (p0 : Nat → Pl) (w0 : Nat → Wr) (hud : d.use_dist = false) :
    (_save_state_dict P W d N sds p0 w0).2 = fun _ =>
      (finish_checkpoint W (write_local_state P W d N sds p0 w0 0)
        [(write_data P W (centralPlans P W d N sds p0 w0 0)
           (planStates P W d N sds p0 w0 0)).2]).2 := by
  simp only [_save_state_dict, _DistWrapper.all_reduce, hud,
    Bool.false_eq_true, if_false, write_local_state]

/-- Characterization of the final state with no communication backend: the
sole participant runs both the local steps and the coordinator steps. -/
lemma save_states_nodist (P : PlannerOps S LP M Pl)
    (W : WriterOps LP M WR Wr Pl) (d : _DistWrapper) (N : Nat) (sds : Nat → S)
    (p0 : Nat → Pl) (w0 : Nat → Wr) (hud : d.use_dist = false) :
    (_save_state_dict P W d N sds p0 w0).1 = fun _ =>
      (finish_checkpoint W (write_local_state P W d N sds p0 w0 0)
        [(write_data P W (centralPlans P W d N sds p0 w0 0)
           (planStates P W d N sds p0 w0 0)).2]).1 := by
  simp only [_save_state_dict, _DistWrapper.all_reduce, hud,
    Bool.false_eq_true, if_false, write_local_state]

/-- Length of the sequence the global step returns, given that planner and
writer preserve the number of plans. -/
lemma global_step_len (P : PlannerOps S LP M Pl) (W : WriterOps LP M WR Wr Pl)
    (st : RankState Pl Wr M) (plans : List LP)
    (Hlen1 : ∀ p ps, ((P.create_global_plan p ps).2.1).length = ps.length)
    (Hlen2 : ∀ w ps, ((W.prepare_global_plan w ps).2).length = ps.length) :
    ((global_step P W st plans).2).length = plans.length := by
  simp [global_step, Hlen1, Hlen2]

/-- The gathered plan sequence has one element per rank. -/
lemma plan_local_outs_length (P : PlannerOps S LP M Pl)
    (W : WriterOps LP M WR Wr Pl) (d : _DistWrapper) (N : Nat) (sds : Nat → S)
    (p0 : Nat → Pl) (w0 : Nat → Wr) :
    (plan_local_outs P W d N sds p0 w0).length = N := by
  simp [plan_local_outs]

/-- With a backend and length-preserving global planning, every rank in range
receives a plan from the scatter step. -/
lemma centralPlans_isSome (P : PlannerOps S LP M Pl)
    (W : WriterOps LP M WR Wr Pl) (d : _DistWrapper) (N : Nat) (sds : Nat → S)
    (p0 : Nat → Pl) (w0 : Nat → Wr) (i : Nat) (hud : d.use_dist = true)
    (Hlen1 : ∀ p ps, ((P.create_global_plan p ps).2.1).length = ps.length)
    (Hlen2 : ∀ w ps, ((W.prepare_global_plan w ps).2).length = ps.length)
    (hi : i < N) :
    (centralPlans P W d N sds p0 w0 i).isSome = true := by
  rw [centralPlans_dist P W d N sds p0 w0 hud]
  have hlen :
      ((global_step P W (plan_states1 P W d sds p0 w0 d.coordinator_rank)
        (plan_local_outs P W d N sds p0 w0)).2).length = N := by
    rw [global_step_len P W _ _ Hlen1 Hlen2, plan_local_outs_length]
  simp only [List.getElem?_eq_getElem (hlen.symm ▸ hi), Option.isSome_some]

/-- With no communication backend and length-preserving global planning, the
sole participant receives a plan from the scatter step. -/
lemma centralPlans_isSome_nodist (P : PlannerOps S LP M Pl)
    (W : WriterOps LP M WR Wr Pl) (d : _DistWrapper) (N : Nat) (sds : Nat → S)
    (p0 : Nat → Pl) (w0 : Nat → Wr) (i : Nat) (hud : d.use_dist = false)
    (Hlen1 : ∀ p ps, ((P.create_global_plan p ps).2.1).length = ps.length)
    (Hlen2 : ∀ w ps, ((W.prepare_global_plan w ps).2).length = ps.length) :
    (centralPlans P W d N sds p0 w0 i).isSome = true := by
  rw [centralPlans_nodist P W d N sds p0 w0 hud]
  have hlen :
      ((global_step P W (plan_local P W d sds 0 (init_rank p0 w0 0)).1
        [(plan_local P W d sds 0 (init_rank p0 w0 0)).2]).2).length = 1 :=
    global_step_len P W _ _ Hlen1 Hlen2
  simp only [List.getElem?_eq_getElem (hlen.symm ▸ Nat.zero_lt_one),
    Option.isSome_some]

/-- With a backend and length-preserving global planning, every rank's write
step succeeds. -/
lemma write_outs_ok (P : PlannerOps S LP M Pl) (W : WriterOps LP M WR Wr Pl)
    (d : _DistWrapper) (N : Nat) (sds : Nat → S) (p0 : Nat → Pl)
    (w0 : Nat → Wr) (hud : d.use_dist = true)
    (Hlen1 : ∀ p ps, ((P.create_global_plan p ps).2.1).length = ps.length)
    (Hlen2 : ∀ w ps, ((W.prepare_global_plan w ps).2).length = ps.length) :
    ∀ x ∈ write_outs P W d N sds p0 w0, ∃ ys, x = Except.ok ys := by
  intro x hx
  simp only [write_outs, List.mem_map, List.mem_range] at hx
  obtain ⟨k, hk, rfl⟩ := hx
  obtain ⟨cp, hcp⟩ := Option.isSome_iff_exists.mp
    (centralPlans_isSome P W d N sds p0 w0 k hud Hlen1 Hlen2 hk)
  rw [hcp]
  exact ⟨_, rfl⟩

/-- No write-phase result carries the metadata assertion failure. -/
lemma write_outs_ne_assert (P : PlannerOps S LP M Pl)
    (W : WriterOps LP M WR Wr Pl) (d : _DistWrapper) (N : Nat) (sds : Nat → S)
    (p0 : Nat → Pl) (w0 : Nat → Wr) :
    ∀ x ∈ write_outs P W d N sds p0 w0,
      x ≠ Except.error SimErr.assert_global_metadata_none := by
  intro x hx
  simp only [write_outs, List.mem_map, List.mem_range] at hx
  obtain ⟨k, hk, rfl⟩ := hx
  intro h
  exact SimErr.noConfusion (write_data_error P W _ _ _ h)

/-- When the metadata cell is populated and no gathered result carries the
assertion failure, `finish_checkpoint` cannot return the assertion
failure. -/
lemma finish_checkpoint_ne_assert (W : WriterOps LP M WR Wr Pl)
    {st : RankState Pl Wr M} {results : List (Except SimErr (List WR))}
    (hmd : st.global_metatadata.isSome = true)
    (hres : ∀ x ∈ results,
      x ≠ Except.error SimErr.assert_global_metadata_none) :
    (finish_checkpoint W st results).2 ≠
      Except.error SimErr.assert_global_metadata_none := by
  obtain ⟨g, hg⟩ := Option.isSome_iff_exists.mp hmd
  cases hc : collectResults results with
  | error e =>
    have hne : e ≠ SimErr.assert_global_metadata_none := by
      intro he
      exact hres _ (collectResults_error_mem hc) (by rw [he])
    simp only [finish_checkpoint, hg, hc]
    intro hcontra
    exact hne (Except.error.inj hcontra)
  | ok ys =>
    simp [finish_checkpoint, hg, hc]

/-- A resolved state dict contains no `Stateful` value. -/
lemma has_stateful_resolve {K V : Type} (sd : List (K × SDValue V)) :
    has_stateful (_stateful_to_state_dict sd) = false := by
  induction sd with
  | nil => rfl
  | cons kv rest ih =>
    cases hv : kv.2 with
    | plain v => simpa [has_stateful, _stateful_to_state_dict, SDValue.resolve,
        hv] using ih
    | stateful s => simpa [has_stateful, _stateful_to_state_dict,
        SDValue.resolve, hv] using ih

/-- Resolution is the identity on a state dict without `Stateful` values. -/
lemma resolve_of_no_stateful {K V : Type} {sd : List (K × SDValue V)}
    (h : has_stateful sd = false) : _stateful_to_state_dict sd = sd := by
  induction sd with
  | nil => rfl
  | cons kv rest ih =>
    cases hv : kv.2 with
    | plain v =>
      have hrest : has_stateful rest = false := by
        simpa [has_stateful, hv] using h
      have hres : SDValue.resolve kv.2 = kv.2 := by rw [hv]; rfl
      calc _stateful_to_state_dict (kv :: rest)
          = (kv.1, SDValue.resolve kv.2) :: _stateful_to_state_dict rest := rfl
        _ = kv :: rest := by rw [hres, ih hrest]
    | stateful s => simp [has_stateful, hv] at h

/-- A fixed two-rank / three-rank exercise planner over `Nat` data: the local
plan of a rank holding `sd` is `sd + 1`; the global metadata is the sum of
all plans. -/
def natP : PlannerOps Nat Nat Nat Nat :=
  ⟨fun p sd _ => p + sd,
   fun p => (p, p + 1),
   fun p plans => (p, (plans, some (plans.foldl (fun a b => a + b) 0))),
   fun p lp => (p, lp)⟩

/-- An exercise writer over `Nat` data whose hooks are inert and whose write
step reports the plan it executed. -/
def natW : WriterOps Nat Nat Nat Nat Nat :=
  ⟨fun w => w,
   fun w _ => w,
   fun w lp => (w, lp),
   fun w plans => (w, plans),
   fun w lp _ => (w, [lp]),
   fun w _ _ => w⟩

/-- A state dict over `Nat` keys and values. -/
abbrev SDN := List (Nat × SDValue Nat)

/-- An exercise planner over state dicts that remembers the state dict it was
set up with and reports it as the global metadata. -/
def exP : PlannerOps SDN Nat SDN (Option SDN) :=
  ⟨fun _ sd _ => some sd,
   fun p => (p, 0),
   fun p plans => (p, (plans, p)),
   fun p lp => (p, lp)⟩

/-- An exercise writer over state dicts whose hooks are inert (its `reset` is
the identity). -/
def exW : WriterOps Nat SDN Nat Unit (Option SDN) :=
  ⟨fun w => w,
   fun w _ => w,
   fun w lp => (w, lp),
   fun w plans => (w, plans),
   fun w lp _ => (w, [lp]),
   fun w _ _ => w⟩

/-- Writer inference from a checkpoint id, for the exercise writer. -/
def exInfer : Nat → Unit := fun _ => ()

/-- An `AsyncStager` capability whose `stage` is the identity. -/
def exStager : AsyncStager SDN := ⟨fun sd => sd, false⟩

/-- Capability query that reports the exercise writer as an `AsyncStager`. -/
def exStagerOf : Unit → Option (AsyncStager SDN) := fun _ => some exStager

/-- Capability query for a writer with no `AsyncStager` capability. -/
def noStagerOf : Unit → Option (AsyncStager SDN) := fun _ => none

/-- A state dict holding one `Stateful` object whose snapshot is `7`. -/
def cxSD : SDN := [(0, SDValue.stateful ⟨7⟩)]

/-- A state dict holding one `Stateful` object whose snapshot is `5`. -/
def cx5SD : SDN := [(0, SDValue.stateful ⟨5⟩)]

/-- A state dict with a single plain value. -/
def plainSD : SDN := [(0, SDValue.plain 3)]

/-- Environment with no distributed backend. -/
def envNoDist : DistEnv := ⟨false, true⟩

/-- Environment with a backend that has a CPU device type. -/
def envDistCpu : DistEnv := ⟨true, true⟩

/-- Environment with a backend that has no CPU device type. -/
def envDistNoCpu : DistEnv := ⟨true, false⟩

/-- A three-rank wrapper with coordinator rank 0. -/
def dRanks : _DistWrapper := ⟨true, 0⟩

/-- The single-process wrapper (no communication backend). -/
def dSolo : _DistWrapper := ⟨false, 0⟩

/-- Per-rank `Nat` state dicts for the exercises. -/
def natSds : Nat → Nat := fun i => i

/-- All-zero initial planner and writer states for the exercises. -/
def natZero : Nat → Nat := fun _ => 0

/-- Initial planner state for the state-dict exercises. -/
def exP0 : Option SDN := none

/-- C8: `_stateful_to_state_dict` returns a new mapping with the same keys,
in which every `Stateful` value is replaced by the result of its
`state_dict()` snapshot and every non-`Stateful` value is kept unchanged;
being a pure function of its argument, the call leaves the input mapping and
the `Stateful` objects in it unmutated (beyond invoking the snapshot
method). -/
theorem C8_stateful_to_state_dict_spec {K V : Type} (sd : List (K × SDValue V)) :
    (_stateful_to_state_dict sd).map Prod.fst = sd.map Prod.fst
    ∧ (∀ i : Nat, (_stateful_to_state_dict sd)[i]? =
        (sd[i]?).map fun kv => (kv.1, SDValue.resolve kv.2))
    ∧ (∀ s : Stateful V,
        SDValue.resolve (SDValue.stateful s) = SDValue.plain s.state_dict)
    ∧ (∀ v : V, SDValue.resolve (SDValue.plain v) = SDValue.plain v) := by
  refine ⟨?_, ?_, fun s => rfl, fun v => rfl⟩
  · simp [_stateful_to_state_dict, List.map_map, Function.comp]
  · intro i
    simp [_stateful_to_state_dict, List.getElem?_map]

/-- C2: with a communication backend, the plan handed back to participant `i`
by the plan-phase `reduce_scatter` (the `central_plan` of `_save_state_dict`)
is element `i` of the sequence returned by `global_step` applied to the
rank-ordered sequence of all local-step outputs; with exactly one participant
and no communication backend, `global_step` is invoked directly on the
single-element sequence of the local output and its single returned element
is handed back, with no communication step — yielding the same plan the
general collective path hands back in its own world-size-one case. -/
theorem C2_reduce_scatter_index_fidelity {S LP M WR Pl Wr : Type}
    (P : PlannerOps S LP M Pl) (W : WriterOps LP M WR Wr Pl)
    (d : _DistWrapper) (N : Nat) (sds : Nat → S) (p0 : Nat → Pl)
    (w0 : Nat → Wr) :
    (d.use_dist = true → ∀ i : Nat,
      centralPlans P W d N sds p0 w0 i =
        ((global_step P W (plan_states1 P W d sds p0 w0 d.coordinator_rank)
          (plan_local_outs P W d N sds p0 w0)).2)[i]?)
    ∧ (d.use_dist = false → ∀ i : Nat,
      centralPlans P W d N sds p0 w0 i =
        ((global_step P W (plan_local P W d sds 0 (init_rank p0 w0 0)).1
          [(plan_local P W d sds 0 (init_rank p0 w0 0)).2]).2)[0]?)
    ∧ centralPlans P W ⟨false, 0⟩ 1 sds p0 w0 0 =
        centralPlans P W ⟨true, 0⟩ 1 sds p0 w0 0 := by
  refine ⟨?_, ?_, ?_⟩
  · intro hud i
    rw [centralPlans_dist P W d N sds p0 w0 hud]
  · intro hud i
    rw [centralPlans_nodist P W d N sds p0 w0 hud]
  · rw [centralPlans_nodist P W ⟨false, 0⟩ 1 sds p0 w0 rfl,
      centralPlans_dist P W ⟨true, 0⟩ 1 sds p0 w0 rfl]
    simp [plan_states1, plan_local_outs, plan_local, List.range_succ,
      _DistWrapper.is_coordinator]

/-- Witness for C2 at three ranks with a backend, at one solo rank, and for
the solo-versus-world-size-one degeneracy. -/
theorem C2_reduce_scatter_index_fidelity_witness :
    (centralPlans natP natW dRanks 3 natSds natZero natZero 1 =
      ((global_step natP natW
        (plan_states1 natP natW dRanks natSds natZero natZero
          dRanks.coordinator_rank)
        (plan_local_outs natP natW dRanks 3 natSds natZero natZero)).2)[1]?)
    ∧ (centralPlans natP natW dSolo 1 natSds natZero natZero 0 =
      ((global_step natP natW
        (plan_local natP natW dSolo natSds 0 (init_rank natZero natZero 0)).1
        [(plan_local natP natW dSolo natSds 0
          (init_rank natZero natZero 0)).2]).2)[0]?)
    ∧ centralPlans natP natW ⟨false, 0⟩ 1 natSds natZero natZero 0 =
        centralPlans natP natW ⟨true, 0⟩ 1 natSds natZero natZero 0 :=
  ⟨(C2_reduce_scatter_index_fidelity natP natW dRanks 3 natSds natZero
      natZero).1 rfl 1,
   (C2_reduce_scatter_index_fidelity natP natW dSolo 1 natSds natZero
      natZero).2.1 rfl 0,
   (C2_reduce_scatter_index_fidelity natP natW dSolo 1 natSds natZero
      natZero).2.2⟩

/-- C1: for every world of `N ≥ 1` participants, the write-phase `all_reduce`
hands every participant the same value, so `_save_state_dict` returns
bit-identical results on every rank; with a backend that common value is the
one computed once by the coordinator's `finish_checkpoint` step. -/
theorem C1_rank_consistency {S LP M WR Pl Wr : Type}
    (P : PlannerOps S LP M Pl) (W : WriterOps LP M WR Wr Pl)
    (d : _DistWrapper) (N : Nat) (sds : Nat → S) (p0 : Nat → Pl)
    (w0 : Nat → Wr) (hN : 1 ≤ N) :
    (∀ i j : Nat, i < N → j < N →
      (_save_state_dict P W d N sds p0 w0).2 i =
        (_save_state_dict P W d N sds p0 w0).2 j)
    ∧ (d.use_dist = true → ∀ i : Nat, i < N →
      (_save_state_dict P W d N sds p0 w0).2 i =
        (finish_checkpoint W
          (write_local_state P W d N sds p0 w0 d.coordinator_rank)
          (write_outs P W d N sds p0 w0)).2) := by
  constructor
  · intro i j hi hj
    cases hud : d.use_dist with
    | false => rw [save_results_nodist P W d N sds p0 w0 hud]
    | true => rw [save_results_dist P W d N sds p0 w0 hud]
  · intro hud i hi
    rw [save_results_dist P W d N sds p0 w0 hud]

/-- Witness for C1 at three ranks with a backend. -/
theorem C1_rank_consistency_witness :
    ((_save_state_dict natP natW dRanks 3 natSds natZero natZero).2 1 =
      (_save_state_dict natP natW dRanks 3 natSds natZero natZero).2 2)
    ∧ ((_save_state_dict natP natW dRanks 3 natSds natZero natZero).2 1 =
      (finish_checkpoint natW
        (write_local_state natP natW dRanks 3 natSds natZero natZero
          dRanks.coordinator_rank)
        (write_outs natP natW dRanks 3 natSds natZero natZero)).2) :=
  ⟨(C1_rank_consistency natP natW dRanks 3 natSds natZero natZero
      (by decide)).1 1 2 (by decide) (by decide),
   (C1_rank_consistency natP natW dRanks 3 natSds natZero natZero
      (by decide)).2 rfl 1 (by decide)⟩

/-- C3: in every run of `_save_state_dict` with a length-preserving,
metadata-producing global plan step — whether over a communication backend
or as a single participant with no backend (where the sole participant acts
as coordinator) — the hooks are invoked on each rank in exactly this order:
`set_up_planner`, `set_up_storage_writer`, `create_local_plan`,
`prepare_local_plan`; then, on the coordinator only, `create_global_plan`
and `prepare_global_plan`; then `finish_plan` on the assigned plan and
`write_data` (blocked on until its results are available); then, on the
coordinator only, `finish`. -/
theorem C3_hook_order {S LP M WR Pl Wr : Type}
    (P : PlannerOps S LP M Pl) (W : WriterOps LP M WR Wr Pl)
    (d : _DistWrapper) (N : Nat) (sds : Nat → S) (p0 : Nat → Pl)
    (w0 : Nat → Wr) (i : Nat) (hi : i < N)
    (Hlen1 : ∀ p ps, ((P.create_global_plan p ps).2.1).length = ps.length)
    (Hlen2 : ∀ w ps, ((W.prepare_global_plan w ps).2).length = ps.length)
    (Hmd : ∀ p ps, ((P.create_global_plan p ps).2.2).isSome = true) :
    ((_save_state_dict P W d N sds p0 w0).1 i).trace =
      [Hook.set_up_planner, Hook.set_up_storage_writer,
       Hook.create_local_plan, Hook.prepare_local_plan]
      ++ (if d.is_coordinator i then
            [Hook.create_global_plan, Hook.prepare_global_plan] else [])
      ++ [Hook.finish_plan, Hook.write_data]
      ++ (if d.is_coordinator i then [Hook.finish] else []) := by
  cases hud : d.use_dist with
  | true =>
    obtain ⟨cp, hcp⟩ := Option.isSome_iff_exists.mp
      (centralPlans_isSome P W d N sds p0 w0 i hud Hlen1 Hlen2 hi)
    rw [save_states_dist P W d N sds p0 w0 hud]
    by_cases hic : i = d.coordinator_rank
    · have hco : d.is_coordinator i = true := by
        simp [_DistWrapper.is_coordinator, hud, hic]
      subst hic
      simp only [if_pos rfl]
      have hmd : (write_local_state P W d N sds p0 w0
          d.coordinator_rank).global_metatadata.isSome = true := by
        simp only [write_local_state, write_data_md,
          planStates_dist P W d N sds p0 w0 hud, if_pos rfl, global_step_md]
        exact Hmd _ _
      obtain ⟨g, hg⟩ := Option.isSome_iff_exists.mp hmd
      obtain ⟨ys, hys⟩ := collectResults_ok
        (write_outs_ok P W d N sds p0 w0 hud Hlen1 Hlen2)
      simp only [finish_checkpoint, hg, hys]
      simp only [write_local_state, hcp, write_data_trace_some]
      simp only [if_true]
      simp only [planStates_dist P W d N sds p0 w0 hud]
      simp only [if_pos]
      simp [global_step_trace, plan_states1, plan_local, local_step_trace,
        init_rank, hco]
    · have hco : d.is_coordinator i = false := by
        simp [_DistWrapper.is_coordinator, hud, hic]
      simp only [if_neg hic]
      simp only [write_local_state, hcp, write_data_trace_some,
        planStates_dist P W d N sds p0 w0 hud, if_neg hic,
        plan_states1, plan_local, local_step_trace, init_rank]
      simp [hco]
  | false =>
    have hco : d.is_coordinator i = true := by
      simp [_DistWrapper.is_coordinator, hud]
    obtain ⟨cp, hcp⟩ := Option.isSome_iff_exists.mp
      (centralPlans_isSome_nodist P W d N sds p0 w0 0 hud Hlen1 Hlen2)
    rw [save_states_nodist P W d N sds p0 w0 hud]
    have hmd : (write_local_state P W d N sds p0 w0
        0).global_metatadata.isSome = true := by
      simp only [write_local_state, write_data_md,
        planStates_nodist P W d N sds p0 w0 hud, global_step_md]
      exact Hmd _ _
    obtain ⟨g, hg⟩ := Option.isSome_iff_exists.mp hmd
    have hall : ∀ x ∈ [(write_data P W (centralPlans P W d N sds p0 w0 0)
        (planStates P W d N sds p0 w0 0)).2], ∃ ws, x = Except.ok ws := by
      intro x hx
      simp only [List.mem_singleton] at hx
      subst hx
      rw [hcp]
      exact ⟨_, rfl⟩
    obtain ⟨ys, hys⟩ := collectResults_ok hall
    simp only [finish_checkpoint, hg, hys]
    simp only [write_local_state, hcp, write_data_trace_some]
    simp only [planStates_nodist P W d N sds p0 w0 hud]
    simp [global_step_trace, plan_states1, plan_local, local_step_trace,
      init_rank, hco]

/-- Witness for C3 at the coordinator rank 0 and rank 1 of a two-rank
backend run, and at the sole participant of a no-backend run. -/
theorem C3_hook_order_witness :
    (((_save_state_dict natP natW dRanks 2 natSds natZero natZero).1 0).trace =
      [Hook.set_up_planner, Hook.set_up_storage_writer,
       Hook.create_local_plan, Hook.prepare_local_plan]
      ++ (if dRanks.is_coordinator 0 then
            [Hook.create_global_plan, Hook.prepare_global_plan] else [])
      ++ [Hook.finish_plan, Hook.write_data]
      ++ (if dRanks.is_coordinator 0 then [Hook.finish] else []))
    ∧ (((_save_state_dict natP natW dRanks 2 natSds natZero natZero).1 1).trace =
      [Hook.set_up_planner, Hook.set_up_storage_writer,
       Hook.create_local_plan, Hook.prepare_local_plan]
      ++ (if dRanks.is_coordinator 1 then
            [Hook.create_global_plan, Hook.prepare_global_plan] else [])
      ++ [Hook.finish_plan, Hook.write_data]
      ++ (if dRanks.is_coordinator 1 then [Hook.finish] else []))
    ∧ (((_save_state_dict natP natW dSolo 1 natSds natZero natZero).1 0).trace =
      [Hook.set_up_planner, Hook.set_up_storage_writer,
       Hook.create_local_plan, Hook.prepare_local_plan]
      ++ (if dSolo.is_coordinator 0 then
            [Hook.create_global_plan, Hook.prepare_global_plan] else [])
      ++ [Hook.finish_plan, Hook.write_data]
      ++ (if dSolo.is_coordinator 0 then [Hook.finish] else [])) :=
  ⟨C3_hook_order natP natW dRanks 2 natSds natZero natZero 0 (by decide)
      (fun p ps => rfl) (fun w ps => rfl) (fun p ps => rfl),
   C3_hook_order natP natW dRanks 2 natSds natZero natZero 1 (by decide)
      (fun p ps => rfl) (fun w ps => rfl) (fun p ps => rfl),
   C3_hook_order natP natW dSolo 1 natSds natZero natZero 0 (by decide)
      (fun p ps => rfl) (fun w ps => rfl) (fun p ps => rfl)⟩

/-- C10: whenever `create_global_plan` returns a non-`None` metadata, the
`assert global_metatadata is not None` in `finish_checkpoint` never fails:
`finish_checkpoint` runs only on the coordinator (or the sole participant),
whose plan-phase `global_step` already stored that metadata in the
closed-over cell. -/
theorem C10_assert_never_fails {S LP M WR Pl Wr : Type}
    (P : PlannerOps S LP M Pl) (W : WriterOps LP M WR Wr Pl)
    (d : _DistWrapper) (N : Nat) (sds : Nat → S) (p0 : Nat → Pl)
    (w0 : Nat → Wr)
    (Hmd : ∀ p ps, ((P.create_global_plan p ps).2.2).isSome = true) :
    ∀ i : Nat, (_save_state_dict P W d N sds p0 w0).2 i ≠
      Except.error SimErr.assert_global_metadata_none := by
  intro i
  cases hud : d.use_dist with
  | true =>
    rw [save_results_dist P W d N sds p0 w0 hud]
    apply finish_checkpoint_ne_assert
    · simp only [write_local_state, write_data_md,
        planStates_dist P W d N sds p0 w0 hud, if_pos rfl, global_step_md]
      exact Hmd _ _
    · exact write_outs_ne_assert P W d N sds p0 w0
  | false =>
    rw [save_results_nodist P W d N sds p0 w0 hud]
    apply finish_checkpoint_ne_assert
    · simp only [write_local_state, write_data_md,
        planStates_nodist P W d N sds p0 w0 hud, global_step_md]
      exact Hmd _ _
    · intro x hx
      simp only [List.mem_singleton] at hx
      subst hx
      intro h
      exact SimErr.noConfusion (write_data_error P W _ _ _ h)

/-- Witness for C10 at three ranks with a backend and at one solo rank. -/
theorem C10_assert_never_fails_witness :
    ((_save_state_dict natP natW dRanks 3 natSds natZero natZero).2 2 ≠
      Except.error SimErr.assert_global_metadata_none)
    ∧ ((_save_state_dict natP natW dSolo 1 natSds natZero natZero).2 0 ≠
      Except.error SimErr.assert_global_metadata_none) :=
  ⟨C10_assert_never_fails natP natW dRanks 3 natSds natZero natZero
      (fun p ps => rfl) 2,
   C10_assert_never_fails natP natW dSolo 1 natSds natZero natZero
      (fun p ps => rfl) 0⟩

/-- C5: `save` fails with the precondition failure when both the storage
writer and the checkpoint id are `None`, without invoking the orchestration
(the error branch carries no collective or planner step); when no
communication group is configured it does not raise, emits the
single-process diagnostic, and completes as a single-participant run
(`use_dist = false`). -/
theorem C5_save_error_handling {K V C LP M WR Pl Wr : Type}
    (env : DistEnv) (P : PlannerOps (List (K × SDValue V)) LP M Pl)
    (W : WriterOps LP M WR Wr Pl) (infer_writer : C → Wr)
    (sds : Nat → List (K × SDValue V)) (N : Nat) (checkpoint_id : Option C)
    (w : Wr) (p0 : Pl) :
    (save env P W infer_writer sds N none none p0 =
      ((if !env.is_dist_init then [Warning.single_process_assumed] else []),
       Except.error SaveErr.no_writer_and_no_checkpoint_id))
    ∧ (env.is_dist_init = false →
      save env P W infer_writer sds N checkpoint_id (some w) p0 =
        ([Warning.single_process_assumed],
         Except.ok (_save_state_dict P W ⟨false, 0⟩ N
           (fun i => _stateful_to_state_dict (sds i)) (fun _ => p0)
           (fun _ => w)))) := by
  constructor
  · rfl
  · intro h
    simp [save, _storage_setup, h]

/-- Witness for C5: both-None inputs fail even with a backend; without a
backend the call warns and completes. -/
theorem C5_save_error_handling_witness :
    (save envDistCpu exP exW exInfer (fun _ => plainSD) 1 none none exP0 =
      ([], Except.error SaveErr.no_writer_and_no_checkpoint_id))
    ∧ (save envNoDist exP exW exInfer (fun _ => plainSD) 1 none (some ()) exP0 =
      ([Warning.single_process_assumed],
       Except.ok (_save_state_dict exP exW ⟨false, 0⟩ 1
         (fun _ => _stateful_to_state_dict plainSD) (fun _ => exP0)
         (fun _ => ())))) :=
  ⟨(C5_save_error_handling envDistCpu exP exW exInfer (fun _ => plainSD) 1
      none () exP0).1,
   (C5_save_error_handling envNoDist exP exW exInfer (fun _ => plainSD) 1
      none () exP0).2 rfl⟩

/-- C4: when the CPU-backend assertion passes, the value eventually carried
by the handle returned by `async_save` is exactly what the synchronous `save`
returns for the staged state, with the same writer, planner and group
configuration. -/
theorem C4_async_equals_save_of_staged {K V C LP M WR Pl Wr : Type}
    (env : DistEnv) (P : PlannerOps (List (K × SDValue V)) LP M Pl)
    (W : WriterOps LP M WR Wr Pl) (infer_writer : C → Wr)
    (as_stager : Wr → Option (AsyncStager (List (K × SDValue V))))
    (sds : Nat → List (K × SDValue V)) (N : Nat) (checkpoint_id : Option C)
    (storage_writer : Option Wr) (p0 : Pl)
    (h : (env.is_dist_init && !env.has_cpu_device) = false) :
    (async_save env P W infer_writer as_stager sds N checkpoint_id
      storage_writer p0).2 =
      Except.ok (save env P W infer_writer
        (fun i => (async_stage as_stager storage_writer (sds i)).2) N
        checkpoint_id storage_writer p0) := by
  simp [async_save, h]

/-- Witness for C4 with a staging writer and no backend. -/
theorem C4_async_equals_save_of_staged_witness :
    (async_save envNoDist exP exW exInfer exStagerOf (fun _ => cxSD) 1 none
      (some ()) exP0).2 =
      Except.ok (save envNoDist exP exW exInfer
        (fun _ => (async_stage exStagerOf (some ()) cxSD).2) 1 none
        (some ()) exP0) :=
  C4_async_equals_save_of_staged envNoDist exP exW exInfer exStagerOf
    (fun _ => cxSD) 1 none (some ()) exP0 rfl

/-- C6: with an active backend that cannot move host-resident data,
`async_save` fails fast with the CPU-backend precondition failure: no
staging event, no submission event, and no collective step occur. -/
theorem C6_async_cpu_precondition {K V C LP M WR Pl Wr : Type}
    (env : DistEnv) (P : PlannerOps (List (K × SDValue V)) LP M Pl)
    (W : WriterOps LP M WR Wr Pl) (infer_writer : C → Wr)
    (as_stager : Wr → Option (AsyncStager (List (K × SDValue V))))
    (sds : Nat → List (K × SDValue V)) (N : Nat) (checkpoint_id : Option C)
    (storage_writer : Option Wr) (p0 : Pl)
    (h1 : env.is_dist_init = true) (h2 : env.has_cpu_device = false) :
    async_save env P W infer_writer as_stager sds N checkpoint_id
      storage_writer p0 =
      (fun _ => [], Except.error SaveErr.cpu_backend_required) := by
  simp [async_save, h1, h2]

/-- Witness for C6 on a backend without a CPU device type. -/
theorem C6_async_cpu_precondition_witness :
    ((async_save envDistNoCpu exP exW exInfer exStagerOf (fun _ => cxSD) 1
        none (some ()) exP0).2 =
      Except.error SaveErr.cpu_backend_required)
    ∧ ((async_save envDistNoCpu exP exW exInfer exStagerOf (fun _ => cxSD) 1
        none (some ()) exP0).1 0 = []) := by
  have h := C6_async_cpu_precondition envDistNoCpu exP exW exInfer exStagerOf
    (fun _ => cxSD) 1 none (some ()) exP0 rfl rfl
  exact ⟨congrArg Prod.snd h, congrFun (congrArg Prod.fst h) 0⟩

/-- Counterexample to C7: with a writer implementing the `AsyncStager`
capability, `async_save` hands `stage` the original state dict, which still
contains an unreplaced `Stateful` element — resolution does not happen
before staging in that branch. -/
theorem C7_counterexample :
    ((async_save envNoDist exP exW exInfer exStagerOf (fun _ => cxSD) 1 none
        (some ()) exP0).1 0 =
      [AsyncEvent.stage_called cxSD, AsyncEvent.submitted cxSD])
    ∧ has_stateful cxSD = true
    ∧ cxSD ≠ _stateful_to_state_dict cxSD := by
  refine ⟨by decide, by decide, by decide⟩

/-- C7 amended: stateful resolution happens before staging only in the
generic host-offload branch (writer without the `AsyncStager` capability);
in the `AsyncStager` branch the original, unresolved state dict is handed to
`stage` (resolution happens later, inside the submitted `save`). -/
theorem C7_amended_staging_input {K V C LP M WR Pl Wr : Type}
    (env : DistEnv) (P : PlannerOps (List (K × SDValue V)) LP M Pl)
    (W : WriterOps LP M WR Wr Pl) (infer_writer : C → Wr)
    (as_stager : Wr → Option (AsyncStager (List (K × SDValue V))))
    (sds : Nat → List (K × SDValue V)) (N : Nat) (checkpoint_id : Option C)
    (storage_writer : Option Wr) (p0 : Pl) (i : Nat)
    (h : (env.is_dist_init && !env.has_cpu_device) = false) :
    (stager_of as_stager storage_writer = none →
      (async_save env P W infer_writer as_stager sds N checkpoint_id
        storage_writer p0).1 i =
        [AsyncEvent.offload_called (_stateful_to_state_dict (sds i)),
         AsyncEvent.submitted
           (_offload_state_dict_to_cpu (_stateful_to_state_dict (sds i)))]
      ∧ has_stateful (_stateful_to_state_dict (sds i)) = false)
    ∧ (∀ cap, stager_of as_stager storage_writer = some cap →
      (async_save env P W infer_writer as_stager sds N checkpoint_id
        storage_writer p0).1 i =
        [AsyncEvent.stage_called (sds i),
         AsyncEvent.submitted (cap.stage (sds i))]
        ++ (if cap.synchronize_after_execute then
              [AsyncEvent.synchronize_called] else [])) := by
  constructor
  · intro hst
    refine ⟨?_, has_stateful_resolve _⟩
    simp [async_save, h, async_stage, hst]
  · intro cap hst
    simp [async_save, h, async_stage, hst]

/-- Witness for the amended C7 on the generic host-offload branch. -/
theorem C7_amended_staging_input_witness :
    (async_save envNoDist exP exW exInfer noStagerOf (fun _ => cxSD) 1 none
        (some ()) exP0).1 0 =
      [AsyncEvent.offload_called (_stateful_to_state_dict cxSD),
       AsyncEvent.submitted
         (_offload_state_dict_to_cpu (_stateful_to_state_dict cxSD))]
    ∧ has_stateful (_stateful_to_state_dict cxSD) = false :=
  (C7_amended_staging_input envNoDist exP exW exInfer noStagerOf
    (fun _ => cxSD) 1 none (some ()) exP0 0 rfl).1 rfl

/-- Counterexample to C9: with a `Stateful` element in the state dict and an
identity `reset`, the deprecated `save_state_dict` and `save` return
different metadata for the same arguments, because `save` resolves
`Stateful` values first and `save_state_dict` does not. -/
theorem C9_counterexample :
    ((save envNoDist exP exW exInfer (fun _ => cx5SD) 1 none (some ())
        exP0).2.map fun out => out.2 0) =
      Except.ok (Except.ok [(0, SDValue.plain 5)])
    ∧ (save_state_dict exP exW (fun _ => cx5SD) 1 () 0 true exP0).2.2 0 =
      Except.ok [(0, SDValue.stateful ⟨5⟩)]
    ∧ ([(0, SDValue.plain 5)] : SDN) ≠ [(0, SDValue.stateful ⟨5⟩)] :=
  ⟨rfl, rfl, by decide⟩

/-- C9 amended: `save_state_dict` has the same effect and returns the same
result as `save` with the same arguments once the writer handed to `save` is
the explicitly reset one, provided the state dict contains no `Stateful`
values (unlike `save`, `save_state_dict` performs no stateful resolution and
no writer inference) and the `no_dist` flag matches the environment with
coordinator rank 0. -/
theorem C9_amended_deprecated_alias {K V C LP M WR Pl Wr : Type}
    (env : DistEnv) (P : PlannerOps (List (K × SDValue V)) LP M Pl)
    (W : WriterOps LP M WR Wr Pl) (infer_writer : C → Wr)
    (sds : Nat → List (K × SDValue V)) (N : Nat) (checkpoint_id : Option C)
    (w0x : Wr) (p0 : Pl)
    (h : ∀ i : Nat, has_stateful (sds i) = false) :
    (save env P W infer_writer sds N checkpoint_id (some (W.reset w0x))
      p0).2 =
      Except.ok
        (save_state_dict P W sds N w0x 0 (!env.is_dist_init) p0).2 := by
  have hsd : (fun i => _stateful_to_state_dict (sds i)) = sds :=
    funext fun i => resolve_of_no_stateful (h i)
  simp only [save, _storage_setup, save_state_dict]
  rw [hsd]

/-- Witness for the amended C9 on a plain state dict. -/
theorem C9_amended_deprecated_alias_witness :
    (save envNoDist exP exW exInfer (fun _ => plainSD) 1 none
      (some (exW.reset ())) exP0).2 =
      Except.ok
        (save_state_dict exP exW (fun _ => plainSD) 1 () 0
          (!envNoDist.is_dist_init) exP0).2 :=
  C9_amended_deprecated_alias envNoDist exP exW exInfer (fun _ => plainSD) 1
    none () exP0 (fun i => rfl)
